import Mathlib

/-!
Verification of the terraform-scripts repository: the paginated
resource-counting / cost-aggregation pipeline (`tfc_cost_estimation.py`)
and the workspace outputs retriever (`tfc_get_outputs.py`).

Numeric model: the Python scripts compute costs with `float` and
`round(x, 4)`.  We model the arithmetic exactly over `ℚ`, with
`round(x, 4)` modelled as round-half-to-even at 4 decimal places
(Python's rounding mode), i.e. the intended exact-decimal semantics of
the source arithmetic.
-/

/-- Round a rational to the nearest integer, ties to even
(the rounding mode of Python's built-in `round`). -/
def roundHalfEven (q : ℚ) : ℤ :=
  let f : ℤ := ⌊q⌋
  let r : ℚ := q - f
  if r < 1/2 then f
  else if 1/2 < r then f + 1
  else if 2 ∣ f then f else f + 1

/-- `round(x, 4)` from the source, on exact rationals. -/
def round4 (q : ℚ) : ℚ := (roundHalfEven (q * 10000) : ℚ) / 10000

/-- `TFC_COST = float(0.00014 * 24)` (tfc_cost_estimation.py line 22). -/
def TFC_COST : ℚ := 0.00014 * 24

/-- `calculate_cost(ws_name, ws_id, resources)` (tfc_cost_estimation.py
lines 85-102): `round(resources * TFC_COST, 4)`.  The name and id are
only used for logging, an external collaborator. -/
def calculate_cost (ws_name ws_id : String) (resources : ℕ) : ℚ :=
  round4 (resources * TFC_COST)

/-! ### Pagination model

A page is a JSON response: a `data` array (`none` models a malformed
response missing the `"data"` key, on which `response["data"]` raises
`KeyError`) and an optional `links.next` cursor (`none` models an absent
`links` object or a `null` next link). -/

/-- One page of a resource listing. -/
structure Page where
  data : Option (List String)
  next : Option String

/-- Result of one HTTP round trip: a decoded page, or an exception from
the transport / auth / decode layer carrying its message. -/
inductive FetchResult where
  | ok (page : Page)
  | err (cause : String)

/-- The remote API as seen by `count_resources`: the initial
`api.workspaces.list_resources(ws_id)` response and `api._get(url)` for
every next link followed verbatim. -/
structure Server where
  list_resources : FetchResult
  get : String → FetchResult

/-- `TerraformCloudError` (tfc_cost_estimation.py lines 25-30): the one
domain error kind, wrapping the underlying cause's message. -/
structure TerraformCloudError where
  msg : String
deriving DecidableEq

/-- The wrapping at tfc_cost_estimation.py lines 77-80:
`TerraformCloudError(f"Error counting resources: {str(err)}")`. -/
def wrapErr (cause : String) : TerraformCloudError :=
  ⟨"Error counting resources: " ++ cause⟩

/-- Message of the `KeyError` raised by `response["data"]` on a
malformed page. -/
def keyErrorData : String := "KeyError: data"

/-- The `while True` loop of `count_resources` (lines 65-76).  `fuel`
bounds the number of iterations we unfold; `none` means the loop did
not finish within `fuel` iterations (the Python loop has no cap and
would still be running).  Per iteration: read `data`, add its length to
the accumulator, read `links.next`; a falsy next (`None` or `""`)
breaks, a truthy one is fetched verbatim via `api._get`. -/
def walkAux (srv : Server) : ℕ → FetchResult → ℕ → Option (Except TerraformCloudError ℕ)
  | 0, _, _ => none
  | _ + 1, FetchResult.err c, _ => some (Except.error (wrapErr c))
  | fuel + 1, FetchResult.ok p, acc =>
    match p.data with
    | none => some (Except.error (wrapErr keyErrorData))
    | some resources =>
      match p.next with
      | none => some (Except.ok (acc + resources.length))
      | some url =>
        if url = "" then some (Except.ok (acc + resources.length))
        else walkAux srv fuel (srv.get url) (acc + resources.length)

/-- `count_resources(api, ws_id)` (tfc_cost_estimation.py lines 52-82):
walk the pages starting from `list_resources`, accumulator starting at
`0`. -/
def count_resources (srv : Server) (fuel : ℕ) : Option (Except TerraformCloudError ℕ) :=
  walkAux srv fuel srv.list_resources 0

/-- `ServesFrom srv fr pages`: starting from response `fr`, the server
serves exactly the chain of data arrays `pages`, each page pointing to
the next via a truthy `links.next` and the last having a falsy one. -/
inductive ServesFrom (srv : Server) : FetchResult → List (List String) → Prop where
  | last (p : Page) (d : List String) :
      p.data = some d → (p.next = none ∨ p.next = some "") →
      ServesFrom srv (FetchResult.ok p) [d]
  | step (p : Page) (d : List String) (url : String) (rest : List (List String)) :
      p.data = some d → p.next = some url → url ≠ "" →
      ServesFrom srv (srv.get url) rest →
      ServesFrom srv (FetchResult.ok p) (d :: rest)

/-- `FailsFrom srv fr c n`: starting from response `fr`, after `n`
successfully decoded pages the walk hits a failure whose cause message
is `c` (a transport error, or a page missing its `data` key). -/
inductive FailsFrom (srv : Server) : FetchResult → String → ℕ → Prop where
  | fetch (c : String) : FailsFrom srv (FetchResult.err c) c 0
  | badData (p : Page) :
      p.data = none → FailsFrom srv (FetchResult.ok p) keyErrorData 0
  | step (p : Page) (d : List String) (url : String) (c : String) (n : ℕ) :
      p.data = some d → p.next = some url → url ≠ "" →
      FailsFrom srv (srv.get url) c n →
      FailsFrom srv (FetchResult.ok p) c (n + 1)

/-- On a served chain the walk returns the accumulator plus the sum of
the page sizes, for any fuel at least the chain length. -/
theorem walkAux_serves {srv : Server} {fr : FetchResult} {pages : List (List String)}
    (h : ServesFrom srv fr pages) :
    ∀ fuel, pages.length ≤ fuel → ∀ acc,
      walkAux srv fuel fr acc = some (Except.ok (acc + (pages.map List.length).sum)) := by
  induction h with
  | last p d hd hn =>
    intro fuel hfuel acc
    match fuel, hfuel with
    | fuel + 1, _ =>
      rcases hn with hn | hn <;> simp [walkAux, hd, hn]
  | step p d url rest hd hn hurl _ ih =>
    intro fuel hfuel acc
    match fuel, hfuel with
    | fuel + 1, hfuel =>
      have : rest.length ≤ fuel := by simpa using Nat.lt_succ_iff.mp hfuel
      simp [walkAux, hd, hn, hurl, ih fuel this, Nat.add_assoc]

/-- On a failing chain the walk returns the uniform wrapped error, for
any fuel beyond the failure depth and for any accumulator value. -/
theorem walkAux_fails {srv : Server} {fr : FetchResult} {c : String} {n : ℕ}
    (h : FailsFrom srv fr c n) :
    ∀ fuel, n < fuel → ∀ acc,
      walkAux srv fuel fr acc = some (Except.error (wrapErr c)) := by
  induction h with
  | fetch c =>
    intro fuel hfuel acc
    match fuel, hfuel with
    | fuel + 1, _ => simp [walkAux]
  | badData p hd =>
    intro fuel hfuel acc
    match fuel, hfuel with
    | fuel + 1, _ => simp [walkAux, hd]
  | step p d url c n hd hn hurl _ ih =>
    intro fuel hfuel acc
    match fuel, hfuel with
    | fuel + 1, hfuel =>
      have : n < fuel := Nat.lt_of_succ_lt_succ hfuel
      simp [walkAux, hd, hn, hurl, ih fuel this]

/-! ### Aggregation pipeline (`main`, tfc_cost_estimation.py lines 105-151)

After the workspace listing succeeds, `main` iterates over the listed
`(name, id)` pairs; `cnt id` abstracts the outcome of
`count_resources(api, workspace_id)` for each workspace.  Successes are
appended to `workspace_data` in listing order; a `TerraformCloudError`
is printed and the workspace skipped. -/

/-- The `workspace_data` list built by the loop at lines 128-136:
successfully counted `(name, id, resources)` triples in listing
order. -/
def workspace_data (ws : List (String × String))
    (cnt : String → Except TerraformCloudError ℕ) : List (String × String × ℕ) :=
  ws.filterMap fun wi =>
    match cnt wi.2 with
    | Except.ok n => some (wi.1, wi.2, n)
    | Except.error _ => none

/-- The per-workspace failures printed by the `except` branch at lines
135-136: `(name, error)` pairs in listing order. -/
def count_failures (ws : List (String × String))
    (cnt : String → Except TerraformCloudError ℕ) : List (String × TerraformCloudError) :=
  ws.filterMap fun wi =>
    match cnt wi.2 with
    | Except.ok _ => none
    | Except.error e => some (wi.1, e)

/-- The comparison of `workspace_data.sort(key=lambda x: x[2])` (line
138): ascending by resource count. -/
def rowLE (a b : String × String × ℕ) : Bool := decide (a.2.2 ≤ b.2.2)

/-- `workspace_data` after the stable ascending sort by resource count
(line 138; Python `list.sort` is stable, modelled by `mergeSort`). -/
def sorted_data (ws : List (String × String))
    (cnt : String → Except TerraformCloudError ℕ) : List (String × String × ℕ) :=
  (workspace_data ws cnt).mergeSort rowLE

/-- `total_resources` accumulated by the loop at lines 140-145. -/
def total_resources (ws : List (String × String))
    (cnt : String → Except TerraformCloudError ℕ) : ℕ :=
  ((sorted_data ws cnt).map (fun r => r.2.2)).sum

/-- `total_monthly_cost` accumulated at line 145: the sum of the
already-rounded per-row costs (not re-rounded here). -/
def total_monthly_cost (ws : List (String × String))
    (cnt : String → Except TerraformCloudError ℕ) : ℚ :=
  ((sorted_data ws cnt).map (fun r => calculate_cost r.1 r.2.1 r.2.2)).sum

/-- The reported total monthly cost (line 150):
`round(total_monthly_cost, 4)` applied at display time. -/
def reported_monthly_cost (ws : List (String × String))
    (cnt : String → Except TerraformCloudError ℕ) : ℚ :=
  round4 (total_monthly_cost ws cnt)

/-- `total_yearly_cost = round(total_monthly_cost * 12, 4)` (line 147),
computed from the un-re-rounded sum. -/
def total_yearly_cost (ws : List (String × String))
    (cnt : String → Except TerraformCloudError ℕ) : ℚ :=
  round4 (total_monthly_cost ws cnt * 12)

/-! ### Outputs retriever (`tfc_get_outputs.py`)

The client is abstracted as: the result of
`tfc.workspaces.show(workspace_name=args.ws)` (`none` when the
workspace is not found, `some id` otherwise) and the `data` rows of
`state_version_outputs.show_current_for_workspace` as `(name, value)`
pairs. -/

/-- The remote API as seen by the outputs flow. -/
structure OutputsApi where
  show_workspace : Option String
  outputs_for : String → List (String × String)

/-- `get_outputs(args, ws_id, output)` (tfc_get_outputs.py lines
56-80): resolve the workspace by name; a missing workspace raises
`TerraformCloudError("Workspace {ws} not found in organization
{org}")`; otherwise return the current state version outputs.  (The
outer `except` re-wraps the error without changing its message, since
`str(TerraformCloudError(msg)) == msg`.) -/
def get_outputs (org ws : String) (api : OutputsApi) :
    Except TerraformCloudError (List (String × String)) :=
  match api.show_workspace with
  | none =>
    Except.error ⟨"Workspace " ++ ws ++ " not found in organization " ++ org⟩
  | some wsId => Except.ok (api.outputs_for wsId)

/-- Python dict lookup on the comprehension at lines 97-100: a later
binding of the same name overwrites an earlier one, so the lookup takes
the last matching pair; `none` models the `KeyError` raised by
`output_dict[args.output]`. -/
def dict_lookup (m : List (String × String)) (k : String) : Option String :=
  m.foldl (fun acc kv => if kv.1 = k then some kv.2 else acc) none

/-- Observable outcome of `main` in tfc_get_outputs.py: the full
mapping printed as JSON, a single raw value, a printed
`TerraformCloudError` followed by `exit(1)`, or an uncaught `KeyError`
escaping `main`. -/
inductive OutputsOutcome where
  | fullMapping (m : List (String × String))
  | singleValue (v : String)
  | tfcError (msg : String)
  | keyError (key : String)
deriving DecidableEq

/-- `main` of tfc_get_outputs.py (lines 83-105), after the token check:
fetch the outputs (a `TerraformCloudError` is printed and the process
exits 1); then `if args.output:` — truthy only for a nonempty name —
look the name up (`KeyError` if absent), else print the full
mapping. -/
def outputs_main (org ws : String) (output : Option String) (api : OutputsApi) :
    OutputsOutcome :=
  match get_outputs org ws api with
  | Except.error e => OutputsOutcome.tfcError e.msg
  | Except.ok rows =>
    match output with
    | some name =>
      if name = "" then OutputsOutcome.fullMapping rows
      else
        match dict_lookup rows name with
        | some v => OutputsOutcome.singleValue v
        | none => OutputsOutcome.keyError name
    | none => OutputsOutcome.fullMapping rows

/-! ### Concrete servers used by witnesses -/

/-- A workspace whose listing spans two pages of sizes 2 and 1. -/
def twoPageServer : Server where
  list_resources := FetchResult.ok ⟨some ["r1", "r2"], some "page2"⟩
  get := fun url =>
    if url = "page2" then FetchResult.ok ⟨some ["r3"], none⟩
    else FetchResult.err "404"

/-- A workspace with a single page holding an empty data array. -/
def emptyPageServer : Server where
  list_resources := FetchResult.ok ⟨some [], none⟩
  get := fun _ => FetchResult.err "404"

/-- A workspace whose first page is fine but whose second page request
fails at the transport layer. -/
def failingServer : Server where
  list_resources := FetchResult.ok ⟨some ["r1"], some "page2"⟩
  get := fun _ => FetchResult.err "connection timed out"

/-- A workspace whose first page carries the falsy next link `""`. -/
def emptyNextServer : Server where
  list_resources := FetchResult.ok ⟨some ["r1"], some ""⟩
  get := fun _ => FetchResult.err "404"

/-- C1: for a workspace whose resource listing spans K ≥ 1 pages with
data arrays of sizes s1..sK (the last page having an absent or null
`links.next`), `count_resources` returns s1 + ... + sK. -/
theorem C1_pagination_sum {srv : Server} {pages : List (List String)} {fuel : ℕ}
    (h : ServesFrom srv srv.list_resources pages) (hfuel : pages.length ≤ fuel) :
    count_resources srv fuel = some (Except.ok (pages.map List.length).sum) := by
  simpa [count_resources] using walkAux_serves h fuel hfuel 0

/-- Witness for C1: the two-page workspace (sizes 2 and 1) counts 3;
the single empty page counts 0. -/
theorem C1_pagination_sum_witness :
    count_resources twoPageServer 2 = some (Except.ok 3) ∧
    count_resources emptyPageServer 1 = some (Except.ok 0) := by
  have h2 : ServesFrom twoPageServer twoPageServer.list_resources
      [["r1", "r2"], ["r3"]] := by
    refine ServesFrom.step _ ["r1", "r2"] "page2" _ rfl rfl (by decide) ?_
    exact ServesFrom.last ⟨some ["r3"], none⟩ ["r3"] rfl (Or.inl rfl)
  have h1 : ServesFrom emptyPageServer emptyPageServer.list_resources [[]] :=
    ServesFrom.last ⟨some [], none⟩ [] rfl (Or.inl rfl)
  exact ⟨C1_pagination_sum h2 (by decide), C1_pagination_sum h1 (by decide)⟩

/-- C9: under the precondition that the chain of next links is finite,
the walk terminates (fuel `pages.length` already yields an answer) and
no artificial page cap exists: every larger fuel yields the same
result, for a chain of any length. -/
theorem C9_walk_terminates {srv : Server} {pages : List (List String)}
    (h : ServesFrom srv srv.list_resources pages) :
    count_resources srv pages.length ≠ none ∧
      ∀ fuel, pages.length ≤ fuel →
        count_resources srv fuel = count_resources srv pages.length := by
  have base := walkAux_serves h pages.length (Nat.le_refl _) 0
  refine ⟨?_, ?_⟩
  · simp [count_resources, base]
  · intro fuel hf
    simp [count_resources, base, walkAux_serves h fuel hf 0]

/-- Witness for C9: the two-page workspace terminates at fuel 2 and is
stable at fuel 50. -/
theorem C9_walk_terminates_witness :
    count_resources twoPageServer 2 ≠ none ∧
    count_resources twoPageServer 50 = count_resources twoPageServer 2 := by
  have h2 : ServesFrom twoPageServer twoPageServer.list_resources
      [["r1", "r2"], ["r3"]] := by
    refine ServesFrom.step _ ["r1", "r2"] "page2" _ rfl rfl (by decide) ?_
    exact ServesFrom.last ⟨some ["r3"], none⟩ ["r3"] rfl (Or.inl rfl)
  exact ⟨(C9_walk_terminates h2).1, (C9_walk_terminates h2).2 50 (by decide)⟩

/-- C7: if any page request fails, for whatever cause, the whole call
returns the single uniform domain error wrapping that cause, and the
partial count accumulated before the failure is discarded: the result
does not depend on the accumulator at all. -/
theorem C7_uniform_failure {srv : Server} {c : String} {n fuel : ℕ}
    (h : FailsFrom srv srv.list_resources c n) (hfuel : n < fuel) :
    count_resources srv fuel = some (Except.error (wrapErr c)) ∧
      ∀ acc, walkAux srv fuel srv.list_resources acc =
        some (Except.error (wrapErr c)) :=
  ⟨walkAux_fails h fuel hfuel 0, fun acc => walkAux_fails h fuel hfuel acc⟩

/-- Witness for C7: the server failing on its second page yields the
wrapped transport error, with the one counted resource discarded. -/
theorem C7_uniform_failure_witness :
    count_resources failingServer 5 =
      some (Except.error (wrapErr "connection timed out")) ∧
    walkAux failingServer 5 failingServer.list_resources 1000 =
      some (Except.error (wrapErr "connection timed out")) := by
  have h : FailsFrom failingServer failingServer.list_resources
      "connection timed out" 1 := by
    refine FailsFrom.step _ ["r1"] "page2" _ 0 rfl rfl (by decide) ?_
    exact FailsFrom.fetch _
  exact ⟨(C7_uniform_failure h (by decide)).1,
    (C7_uniform_failure h (by decide)).2 1000⟩

/-- C10: the walk stops on every falsy `links.next` value — not only an
absent or null link but also the empty string — returning the count
accumulated so far; only a truthy (nonempty) next link is followed as
the next request. -/
theorem C10_falsy_next (srv : Server) (fuel acc : ℕ) (p : Page) (d : List String)
    (hd : p.data = some d) :
    (p.next = some "" →
      walkAux srv (fuel + 1) (FetchResult.ok p) acc =
        some (Except.ok (acc + d.length))) ∧
    (p.next = none →
      walkAux srv (fuel + 1) (FetchResult.ok p) acc =
        some (Except.ok (acc + d.length))) ∧
    (∀ url, p.next = some url → url ≠ "" →
      walkAux srv (fuel + 1) (FetchResult.ok p) acc =
        walkAux srv fuel (srv.get url) (acc + d.length)) := by
  refine ⟨fun hn => ?_, fun hn => ?_, fun url hn hurl => ?_⟩
  · simp [walkAux, hd, hn]
  · simp [walkAux, hd, hn]
  · simp [walkAux, hd, hn, hurl]

/-- Witness for C10: the server answering a first page with next link
`""` ends the walk there with count 1, never following the link. -/
theorem C10_falsy_next_witness :
    walkAux emptyNextServer 7 (FetchResult.ok ⟨some ["r1"], some ""⟩) 0 =
      some (Except.ok 1) :=
  (C10_falsy_next emptyNextServer 6 0 ⟨some ["r1"], some ""⟩ ["r1"] rfl).1 rfl

/-! ### Rounding facts -/

/-- Rounding an integer changes nothing. -/
theorem roundHalfEven_intCast (n : ℤ) : roundHalfEven (n : ℚ) = n := by
  unfold roundHalfEven
  norm_num

/-- An exact multiple of `1/10000` is a fixed point of `round4`. -/
theorem round4_fixed (q : ℚ) (n : ℤ) (hq : q = (n : ℚ) / 10000) : round4 q = q := by
  subst hq
  unfold round4
  have h : (n : ℚ) / 10000 * 10000 = (n : ℚ) := by
    field_simp
  rw [h, roundHalfEven_intCast]

/-- A sum of multiples of `1/10000` is a multiple of `1/10000`. -/
theorem sum_tenThousandths (l : List ℚ) (h : ∀ x ∈ l, ∃ n : ℤ, x = (n : ℚ) / 10000) :
    ∃ n : ℤ, l.sum = (n : ℚ) / 10000 := by
  induction l with
  | nil => exact ⟨0, by simp⟩
  | cons a t ih =>
    obtain ⟨m, hm⟩ := h a (List.mem_cons_self a t)
    obtain ⟨k, hk⟩ := ih fun x hx => h x (List.mem_cons_of_mem a hx)
    refine ⟨m + k, ?_⟩
    rw [List.sum_cons, hm, hk]
    push_cast
    ring

/-- The accumulated monthly total is a multiple of `1/10000`, so the
display-time rounding at line 150 leaves it unchanged. -/
theorem reported_monthly_eq_total (ws : List (String × String))
    (cnt : String → Except TerraformCloudError ℕ) :
    reported_monthly_cost ws cnt = total_monthly_cost ws cnt := by
  obtain ⟨n, hn⟩ := sum_tenThousandths
    ((sorted_data ws cnt).map fun r => calculate_cost r.1 r.2.1 r.2.2)
    (by
      intro x hx
      obtain ⟨r, _, hr⟩ := List.mem_map.mp hx
      exact ⟨roundHalfEven ((r.2.2 : ℚ) * TFC_COST * 10000), by
        rw [← hr]; rfl⟩)
  rw [reported_monthly_cost, total_monthly_cost, hn]
  exact round4_fixed _ n rfl

/-- RATE as the spec words it: the single named constant
`0.00014 * 24 = 0.00336`. -/
def RATE : ℚ := 0.00336

/-- C5: the per-workspace cost function is pure in the resource count —
the name and id arguments do not affect it — and equals
`round(resource_count * RATE, 4)` with `RATE = 0.00014 * 24 = 0.00336`;
in particular it maps 100 resources to 0.336. -/
theorem C5_monthly_cost_pure (n1 i1 n2 i2 : String) (r : ℕ) :
    calculate_cost n1 i1 r = calculate_cost n2 i2 r ∧
    TFC_COST = 0.00014 * 24 ∧
    TFC_COST = RATE ∧
    calculate_cost n1 i1 r = round4 ((r : ℚ) * RATE) ∧
    calculate_cost n1 i1 100 = 0.336 := by
  refine ⟨rfl, rfl, by norm_num [TFC_COST, RATE], ?_, ?_⟩
  · show round4 ((r : ℚ) * TFC_COST) = round4 ((r : ℚ) * RATE)
    norm_num [TFC_COST, RATE]
  · show round4 ((100 : ℕ) * TFC_COST) = 0.336
    norm_num [TFC_COST, round4, roundHalfEven]

/-- The two-workspace organization of the concrete scenario. -/
def demoWs : List (String × String) := [("A", "ws-a"), ("B", "ws-b")]

/-- Counting outcomes for the concrete scenario: 100 and 200
resources. -/
def demoCnt : String → Except TerraformCloudError ℕ := fun wsId =>
  if wsId = "ws-a" then Except.ok 100
  else if wsId = "ws-b" then Except.ok 200
  else Except.error (wrapErr "404")

/-- C2: the rollup order is: round each row to 4 places, sum the
rounded rows, round the sum to 4 places for the reported monthly total,
multiply that total by 12 and round again for the yearly total; on the
concrete two-workspace run with counts 100 and 200 the rows are 0.336
and 0.672, the monthly total 1.008 and the yearly total 12.096. -/
theorem C2_rollup_order :
    (∀ ws cnt, total_monthly_cost ws cnt =
      ((sorted_data ws cnt).map fun r => round4 ((r.2.2 : ℚ) * TFC_COST)).sum) ∧
    (∀ ws cnt, reported_monthly_cost ws cnt = round4 (total_monthly_cost ws cnt)) ∧
    (∀ ws cnt, total_yearly_cost ws cnt =
      round4 (reported_monthly_cost ws cnt * 12)) ∧
    ((sorted_data demoWs demoCnt).map fun r => calculate_cost r.1 r.2.1 r.2.2) =
      [0.336, 0.672] ∧
    reported_monthly_cost demoWs demoCnt = 1.008 ∧
    total_yearly_cost demoWs demoCnt = 12.096 := by
  have hsorted : sorted_data demoWs demoCnt =
      [("A", "ws-a", 100), ("B", "ws-b", 200)] := by
    have hwd : workspace_data demoWs demoCnt =
        [("A", "ws-a", 100), ("B", "ws-b", 200)] := rfl
    rw [sorted_data, hwd]
    exact List.mergeSort_of_sorted (by decide)
  have hrows : ((sorted_data demoWs demoCnt).map
      fun r => calculate_cost r.1 r.2.1 r.2.2) = [0.336, 0.672] := by
    rw [hsorted]
    show [round4 ((100 : ℕ) * TFC_COST), round4 ((200 : ℕ) * TFC_COST)] =
      [0.336, 0.672]
    norm_num [TFC_COST, round4, roundHalfEven]
  have htot : total_monthly_cost demoWs demoCnt = 1.008 := by
    rw [total_monthly_cost, hrows]
    norm_num
  refine ⟨fun ws cnt => rfl, fun ws cnt => rfl, fun ws cnt => ?_, hrows, ?_, ?_⟩
  · rw [total_yearly_cost, reported_monthly_eq_total]
  · rw [reported_monthly_eq_total, htot]
  · rw [total_yearly_cost, htot]
    norm_num [round4, roundHalfEven]

/-- `rowLE` is transitive. -/
theorem rowLE_trans (a b c : String × String × ℕ) :
    rowLE a b → rowLE b c → rowLE a c := by
  simp only [rowLE, decide_eq_true_eq]
  omega

/-- `rowLE` is total. -/
theorem rowLE_total (a b : String × String × ℕ) : rowLE a b || rowLE b a := by
  simp only [rowLE]
  by_cases h : a.2.2 ≤ b.2.2
  · simp [h]
  · simp [h]
    omega

/-- Stability of the sort at line 138: the rows holding a fixed
resource count come out of the sort exactly in their original relative
order. -/
theorem mergeSort_filter_key (l : List (String × String × ℕ)) (c : ℕ) :
    (l.mergeSort rowLE).filter (fun r => r.2.2 == c) =
      l.filter (fun r => r.2.2 == c) := by
  have hpair : (l.filter (fun r => r.2.2 == c)).Pairwise (fun a b => rowLE a b) := by
    apply List.pairwise_of_forall_mem_list
    intro a ha b hb
    have ha' := (List.mem_filter.mp ha).2
    have hb' := (List.mem_filter.mp hb).2
    simp only [beq_iff_eq] at ha' hb'
    simp [rowLE, ha', hb']
  have hsub : List.Sublist (l.filter (fun r => r.2.2 == c)) (l.mergeSort rowLE) :=
    List.sublist_mergeSort rowLE_trans rowLE_total hpair (List.filter_sublist l)
  have hsub2 : List.Sublist (l.filter (fun r => r.2.2 == c))
      ((l.mergeSort rowLE).filter (fun r => r.2.2 == c)) := by
    have h := hsub.filter (fun r => r.2.2 == c)
    simpa [List.filter_filter] using h
  have hperm : List.Perm ((l.mergeSort rowLE).filter (fun r => r.2.2 == c))
      (l.filter (fun r => r.2.2 == c)) :=
    (List.mergeSort_perm l rowLE).filter _
  exact (hsub2.eq_of_length hperm.length_eq.symm).symm

/-- C6: the pipeline sorts the successfully-counted rows ascending by
resource count with a stable sort — rows with equal counts retain their
original relative order from the workspace listing. -/
theorem C6_stable_sort (ws : List (String × String))
    (cnt : String → Except TerraformCloudError ℕ) (c : ℕ) :
    (sorted_data ws cnt).Pairwise (fun a b => a.2.2 ≤ b.2.2) ∧
    (sorted_data ws cnt).filter (fun r => r.2.2 == c) =
      (workspace_data ws cnt).filter (fun r => r.2.2 == c) := by
  constructor
  · refine (List.sorted_mergeSort rowLE_trans rowLE_total
      (workspace_data ws cnt)).imp ?_
    intro a b h
    simpa [rowLE] using h
  · exact mergeSort_filter_key (workspace_data ws cnt) c

/-- Dropping a failing workspace id from the listing leaves
`workspace_data` unchanged: every occurrence of that id is skipped by
the loop anyway. -/
theorem workspace_data_cons (a : String × String) (t : List (String × String))
    (cnt : String → Except TerraformCloudError ℕ) :
    workspace_data (a :: t) cnt =
      (match cnt a.2 with
        | Except.ok n => [(a.1, a.2, n)]
        | Except.error _ => []) ++ workspace_data t cnt := by
  rw [workspace_data, workspace_data, List.filterMap_cons]
  cases cnt a.2 <;> simp

theorem workspace_data_drop_failed (cnt : String → Except TerraformCloudError ℕ)
    (iB : String) (e : TerraformCloudError) (hfail : cnt iB = Except.error e) :
    ∀ ws : List (String × String),
      workspace_data (ws.filter fun wi => wi.2 ≠ iB) cnt = workspace_data ws cnt := by
  intro ws
  induction ws with
  | nil => rfl
  | cons a t ih =>
    rw [List.filter_cons]
    by_cases ha : a.2 = iB
    · have hcnt : cnt a.2 = Except.error e := by rw [ha, hfail]
      rw [if_neg (by simpa using ha), ih, workspace_data_cons a t cnt, hcnt]
      simp
    · rw [if_pos (by simpa using ha),
        workspace_data_cons a (t.filter fun wi => wi.2 ≠ iB) cnt,
        workspace_data_cons a t cnt, ih]

/-- C3: when the organization listing succeeds and counting fails for a
workspace B while others succeed, B appears in no row, its failure is
reported separately, removing B from the listing changes none of the
three totals, every successfully counted workspace still appears, and
the rows are sorted. -/
theorem C3_failure_isolation (ws : List (String × String))
    (cnt : String → Except TerraformCloudError ℕ) (nB iB : String)
    (e : TerraformCloudError) (hmem : (nB, iB) ∈ ws) (hfail : cnt iB = Except.error e) :
    (∀ r ∈ sorted_data ws cnt, r.2.1 ≠ iB) ∧
    (nB, e) ∈ count_failures ws cnt ∧
    (total_resources (ws.filter fun wi => wi.2 ≠ iB) cnt = total_resources ws cnt ∧
     total_monthly_cost (ws.filter fun wi => wi.2 ≠ iB) cnt = total_monthly_cost ws cnt ∧
     total_yearly_cost (ws.filter fun wi => wi.2 ≠ iB) cnt = total_yearly_cost ws cnt) ∧
    (∀ n i k, (n, i) ∈ ws → cnt i = Except.ok k → (n, i, k) ∈ sorted_data ws cnt) ∧
    (sorted_data ws cnt).Pairwise (fun a b => a.2.2 ≤ b.2.2) := by
  have hwd := workspace_data_drop_failed cnt iB e hfail ws
  refine ⟨?_, ?_, ?_, ?_, ?_⟩
  · intro r hr
    rw [sorted_data] at hr
    have hr' : r ∈ workspace_data ws cnt := List.mem_mergeSort.mp hr
    obtain ⟨wi, _, hwi⟩ := List.mem_filterMap.mp hr'
    intro hid
    rcases h : cnt wi.2 with _ | k <;> rw [h] at hwi
    · exact absurd hwi (by simp)
    · have : wi.2 = iB := by
        cases hwi' : hwi
        simpa using hid
      rw [this, hfail] at h
      exact absurd h (by simp)
  · exact List.mem_filterMap.mpr ⟨(nB, iB), hmem, by simp [hfail]⟩
  · have h2 : sorted_data (ws.filter fun wi => wi.2 ≠ iB) cnt = sorted_data ws cnt := by
      rw [sorted_data, hwd, sorted_data]
    refine ⟨?_, ?_, ?_⟩ <;>
      simp only [total_resources, total_monthly_cost, total_yearly_cost, h2]
  · intro n i k hin hok
    rw [sorted_data]
    exact List.mem_mergeSort.mpr (List.mem_filterMap.mpr ⟨(n, i), hin, by simp [hok]⟩)
  · refine (List.sorted_mergeSort rowLE_trans rowLE_total
      (workspace_data ws cnt)).imp ?_
    intro a b h
    simpa [rowLE] using h

/-- C4: the workspace-not-found failure and the missing-output failure
are distinct, distinguishable kinds: the former yields the printed
`TerraformCloudError`, the latter the uncaught `KeyError`, and no
outcome of the one kind equals an outcome of the other. -/
theorem C4_distinct_error_kinds (org ws name : String) (api : OutputsApi) :
    (api.show_workspace = none →
      outputs_main org ws (some name) api = OutputsOutcome.tfcError
        ("Workspace " ++ ws ++ " not found in organization " ++ org)) ∧
    (∀ wid, api.show_workspace = some wid → name ≠ "" →
      dict_lookup (api.outputs_for wid) name = none →
      outputs_main org ws (some name) api = OutputsOutcome.keyError name) ∧
    (∀ msg key, OutputsOutcome.tfcError msg ≠ OutputsOutcome.keyError key) := by
  refine ⟨fun h => ?_, fun wid hshow hname hmiss => ?_, fun msg key h => ?_⟩
  · simp [outputs_main, get_outputs, h]
  · simp [outputs_main, get_outputs, hshow, hname, hmiss]
  · exact OutputsOutcome.noConfusion h

/-- C8: for an existing workspace, requesting no output returns the
full name-to-value mapping of the current state version, and requesting
a present output returns exactly its value. -/
theorem C8_outputs_projection (org ws wid : String) (api : OutputsApi)
    (hshow : api.show_workspace = some wid) :
    outputs_main org ws none api =
      OutputsOutcome.fullMapping (api.outputs_for wid) ∧
    (∀ name v, name ≠ "" → dict_lookup (api.outputs_for wid) name = some v →
      outputs_main org ws (some name) api = OutputsOutcome.singleValue v) := by
  refine ⟨?_, fun name v hname hhit => ?_⟩
  · simp [outputs_main, get_outputs, hshow]
  · simp [outputs_main, get_outputs, hshow, hname, hhit]

/-- The workspace of the concrete outputs scenario: outputs
`vpc_id = vpc-1` and `region = us-east-1`. -/
def demoOutputsApi : OutputsApi where
  show_workspace := some "ws-prod"
  outputs_for := fun _ => [("vpc_id", "vpc-1"), ("region", "us-east-1")]

/-- An organization without the requested workspace. -/
def missingWsApi : OutputsApi where
  show_workspace := none
  outputs_for := fun _ => []

/-- Witness for C4: the missing workspace gives the printed domain
error; the bogus output name on the existing workspace gives the
`KeyError`; the two outcomes differ. -/
theorem C4_distinct_error_kinds_witness :
    outputs_main "acme" "missing-ws" (some "vpc_id") missingWsApi =
      OutputsOutcome.tfcError
        "Workspace missing-ws not found in organization acme" ∧
    outputs_main "acme" "prod" (some "bogus") demoOutputsApi =
      OutputsOutcome.keyError "bogus" ∧
    OutputsOutcome.tfcError "Workspace missing-ws not found in organization acme" ≠
      OutputsOutcome.keyError "bogus" := by
  refine ⟨?_, ?_, ?_⟩
  · exact (C4_distinct_error_kinds "acme" "missing-ws" "vpc_id" missingWsApi).1 rfl
  · exact (C4_distinct_error_kinds "acme" "prod" "bogus" demoOutputsApi).2.1
      "ws-prod" rfl (by decide) rfl
  · exact (C4_distinct_error_kinds "acme" "prod" "bogus" demoOutputsApi).2.2 _ _

/-- Witness for C8: the two-output workspace yields its two-key mapping
when no output is requested, and exactly `vpc-1` for `vpc_id`. -/
theorem C8_outputs_projection_witness :
    outputs_main "acme" "prod" none demoOutputsApi =
      OutputsOutcome.fullMapping [("vpc_id", "vpc-1"), ("region", "us-east-1")] ∧
    outputs_main "acme" "prod" (some "vpc_id") demoOutputsApi =
      OutputsOutcome.singleValue "vpc-1" := by
  refine ⟨?_, ?_⟩
  · exact (C8_outputs_projection "acme" "prod" "ws-prod" demoOutputsApi rfl).1
  · exact (C8_outputs_projection "acme" "prod" "ws-prod" demoOutputsApi rfl).2
      "vpc_id" "vpc-1" (by decide) rfl

/-- The three-workspace listing of the partial-failure scenario. -/
def demoFailWs : List (String × String) :=
  [("A", "ws-a"), ("B", "ws-bad"), ("C", "ws-c")]

/-- Counting outcomes for the partial-failure scenario: A and C count
(5 and 2 resources), B fails. -/
def demoFailCnt : String → Except TerraformCloudError ℕ := fun wsId =>
  if wsId = "ws-a" then Except.ok 5
  else if wsId = "ws-c" then Except.ok 2
  else Except.error (wrapErr "boom")

/-- Witness for C3: B's failure is reported, and dropping B from the
listing changes no total. -/
theorem C3_failure_isolation_witness :
    ("B", wrapErr "boom") ∈ count_failures demoFailWs demoFailCnt ∧
    total_resources (demoFailWs.filter fun wi => wi.2 ≠ "ws-bad") demoFailCnt =
      total_resources demoFailWs demoFailCnt ∧
    ("A", "ws-a", 5) ∈ sorted_data demoFailWs demoFailCnt := by
  have h := C3_failure_isolation demoFailWs demoFailCnt "B" "ws-bad"
    (wrapErr "boom") (by simp [demoFailWs]) rfl
  exact ⟨h.2.1, h.2.2.1.1, h.2.2.2.1 "A" "ws-a" 5 (by simp [demoFailWs]) rfl⟩
